import Mathlib

/-!
Verification of the sprite-strip generation pipeline of
src/src/hooks/useSpriteStripGenerator.ts (the only file of the repository
with algorithmic content; the rest is UI wiring excluded by the spec).

The embedding is shallow: each helper of the hook is translated into a Lean
definition over an idealized numeric domain (Nat pixel grids for the canvas
compositor, exact reals for the geometry, rationals for the progress
fractions). Host-API functions (three.js loaders, canvas drawImage
sampling, Math.tan / Math.sqrt) are modelled by their documented exact
semantics.
-/

namespace SpriteGen

/-- Canvas dimensions as selected by getCanvasDimensions: the per-frame
width and height of the render target. -/
structure Dims where
  width : Nat
  height : Nat

/-- An image as the compositor sees it: a size plus a pixel lookup.
Pixels out of range are irrelevant to the theorems. -/
structure Img where
  width : Nat
  height : Nat
  pix : Nat → Nat → Nat

/-- Model of canvas drawImage(img, dx, dy, dw, dh) sampling: the source
image is stretched over the dw times dh destination rectangle, so
destination texel (u, v) reads source texel (u * img.width / dw,
v * img.height / dh) (nearest sampling; exact when no scaling occurs). -/
def sampleScaled (img : Img) (dw dh u v : Nat) : Nat :=
  img.pix (u * img.width / dw) (v * img.height / dh)

/-- createSpriteStrip (useSpriteStripGenerator.ts lines 511-536): allocates
a canvas of width dimensions.width * frames.length and height
dimensions.height, and draws frame i with
ctx.drawImage(img, i * dimensions.width, 0, dimensions.width,
dimensions.height). The destination rectangles tile the canvas disjointly,
so the resulting pixel map is: column block x / width comes from frame
x / width, sampled at (x mod width, y) scaled from that frame. -/
def createSpriteStrip (frames : List Img) (d : Dims) : Img :=
  { width := d.width * frames.length
    height := d.height
    pix := fun x y =>
      match frames.get? (x / d.width) with
      | some f => sampleScaled f d.width d.height (x % d.width) y
      | none => 0 }

/-- createSpriteStrip as the caller observes it. The source wraps the work
in new Promise((resolve) => ...) whose executor never calls reject and
performs no check of any kind on the frame dimensions: resolve fires when
loadedImages reaches frames.length inside the per-image onload handler.
With at least one frame every onload eventually fires and the promise
resolves with the composed strip; with zero frames no onload ever fires
and the promise never settles (modelled as none). There is no error
outcome in the type because the executor has no reject path. -/
def createSpriteStripRun (frames : List Img) (d : Dims) : Option Img :=
  if frames.isEmpty then none else some (createSpriteStrip frames d)

theorem sampleScaled_id (f : Img) (dw dh u v : Nat)
    (hfw : f.width = dw) (hfh : f.height = dh)
    (hw : 0 < dw) (hh : 0 < dh) :
    sampleScaled f dw dh u v = f.pix u v := by
  unfold sampleScaled
  rw [hfw, hfh, Nat.mul_div_cancel _ hw, Nat.mul_div_cancel _ hh]

/-- C1: for a successful run with frameCount at least 1 frames each of the
expected dimensions, the composed strip has width frameWidth * frameCount
and height frameHeight, and frame i appears identically (no scaling) at
horizontal offset i * frameWidth, full height; the offset blocks tile the
strip with no gaps and no overlap. -/
theorem createSpriteStrip_layout (frames : List Img) (d : Dims)
    (hn : 1 ≤ frames.length) (hw : 0 < d.width) (hh : 0 < d.height)
    (hdim : ∀ f ∈ frames, f.width = d.width ∧ f.height = d.height) :
    (createSpriteStrip frames d).width = d.width * frames.length ∧
    (createSpriteStrip frames d).height = d.height ∧
    ∀ i, ∀ hi : i < frames.length, ∀ u < d.width, ∀ v < d.height,
      (createSpriteStrip frames d).pix (i * d.width + u) v
        = (frames.get ⟨i, hi⟩).pix u v := by
  refine ⟨rfl, rfl, ?_⟩
  intro i hi u hu v hv
  have hx : i * d.width + u = u + i * d.width := by ring
  have hdiv : (i * d.width + u) / d.width = i := by
    rw [hx, Nat.add_mul_div_right _ _ hw, Nat.div_eq_of_lt hu, Nat.zero_add]
  have hmod : (i * d.width + u) % d.width = u := by
    rw [hx, Nat.add_mul_mod_self_right, Nat.mod_eq_of_lt hu]
  show (match frames.get? ((i * d.width + u) / d.width) with
      | some f => sampleScaled f d.width d.height ((i * d.width + u) % d.width) v
      | none => 0) = (frames.get ⟨i, hi⟩).pix u v
  rw [hdiv, hmod, List.get?_eq_get hi]
  have hf := hdim (frames.get ⟨i, hi⟩) (frames.get_mem i hi)
  exact sampleScaled_id _ _ _ _ _ hf.1 hf.2 hw hh

/-- A sample frame used by concrete witnesses. -/
def frameA : Img := { width := 2, height := 3, pix := fun x y => x + 10 * y }

/-- Witness for C1 at a concrete input: one 2 by 3 frame composed into a
2 by 3 strip, pixel (1,2) of the strip block 0 equals pixel (1,2) of the
frame. -/
theorem createSpriteStrip_layout_witness :
    (createSpriteStrip [frameA] ⟨2, 3⟩).pix (0 * 2 + 1) 2 = (([frameA].get ⟨0, by decide⟩).pix 1 2) := by
  have h := createSpriteStrip_layout [frameA] ⟨2, 3⟩ (by decide) (by decide) (by decide)
    (by intro f hf; rw [List.mem_singleton] at hf; subst hf; exact ⟨rfl, rfl⟩)
  exact h.2.2 0 (by decide) 1 (by decide) 2 (by decide)

/-- Counterexample to C8 as stated: a frame whose dimensions disagree with
the expected frameWidth/frameHeight (7 by 5 against 2 by 3) does not make
createSpriteStrip fail; the promise still resolves with a strip. -/
theorem createSpriteStrip_no_dimension_check :
    (Img.width ⟨7, 5, fun _ _ => 0⟩ ≠ Dims.width ⟨2, 3⟩) ∧
    (createSpriteStripRun [⟨7, 5, fun _ _ => 0⟩] ⟨2, 3⟩).isSome = true := by
  exact ⟨by decide, rfl⟩

/-- C8 amended: createSpriteStrip performs no dimension check and has no
failure path at all; it resolves exactly when the frame list is nonempty
(with zero frames the promise never settles), regardless of whether any
frame dimensions disagree with frameWidth/frameHeight. -/
theorem createSpriteStripRun_total (frames : List Img) (d : Dims) :
    (createSpriteStripRun frames d).isSome = true ↔ frames ≠ [] := by
  cases frames <;> simp [createSpriteStripRun]

/-- The three model formats tried by loadModel, in source order. -/
inductive Fmt where
  | gltf
  | fbx
  | obj
deriving DecidableEq

/-- The fixed message of the Error rejected by loadModel when every
decoder has failed (useSpriteStripGenerator.ts line 373). -/
def loadFailMsg : String :=
  "Failed to load 3D model. Supported formats: GLTF, FBX, OBJ"

/-- loadModel (useSpriteStripGenerator.ts lines 345-381), instrumented
with the list of decoders attempted. The three loaders are external
three.js code, so each is given by its outcome on the one url of the call:
an Except value (ok scene, or the error handed to the error callback).
The source nests them: GLTFLoader first; its error callback runs
FBXLoader; its error callback runs OBJLoader; its error callback rejects
with a fresh Error carrying the fixed message (the individual errors are
only logged with console.error, not placed on the rejection). -/
def loadModelTrace {M : Type} (g f o : Except String M) :
    Except String M × List Fmt :=
  match g with
  | .ok m => (.ok m, [.gltf])
  | .error _ =>
    match f with
    | .ok m => (.ok m, [.gltf, .fbx])
    | .error _ =>
      match o with
      | .ok m => (.ok m, [.gltf, .fbx, .obj])
      | .error _ => (.error loadFailMsg, [.gltf, .fbx, .obj])

/-- C3 amended: loadModel attempts decoders in the fixed order GLTF, FBX,
OBJ (the attempt trace is always a prefix of that list, so no decoder is
retried and none is tried out of order); the first decoder that succeeds
has its result returned immediately without trying the rest; when all
three fail the operation fails with a fixed error message naming the
supported formats (the per-decoder failure reasons are only logged to the
console, not carried on the error). -/
theorem loadModel_order {M : Type} (g f o : Except String M) :
    ((loadModelTrace g f o).2 <+: [Fmt.gltf, Fmt.fbx, Fmt.obj]) ∧
    (∀ m, g = .ok m → loadModelTrace g f o = (.ok m, [Fmt.gltf])) ∧
    (∀ e m, g = .error e → f = .ok m →
      loadModelTrace g f o = (.ok m, [Fmt.gltf, Fmt.fbx])) ∧
    (∀ e e2 m, g = .error e → f = .error e2 → o = .ok m →
      loadModelTrace g f o = (.ok m, [Fmt.gltf, Fmt.fbx, Fmt.obj])) ∧
    (∀ e e2 e3, g = .error e → f = .error e2 → o = .error e3 →
      loadModelTrace g f o = (.error loadFailMsg, [Fmt.gltf, Fmt.fbx, Fmt.obj])) := by
  cases g <;> cases f <;> cases o <;>
    refine ⟨?_, ?_, ?_, ?_, ?_⟩ <;>
      first
        | exact List.nil_prefix _
        | exact ⟨[Fmt.fbx, Fmt.obj], rfl⟩
        | exact ⟨[Fmt.obj], rfl⟩
        | exact ⟨[], by simp [loadModelTrace]⟩
        | exact List.prefix_refl _
        | (intros; simp_all [loadModelTrace])

/-- Witness for C3: with a succeeding GLTF decoder the trace stops at
GLTF and the GLTF result is returned. -/
theorem loadModel_order_witness :
    loadModelTrace (M := Nat) (.ok 7) (.error "x") (.error "y") = (.ok 7, [Fmt.gltf]) :=
  (loadModel_order (M := Nat) (.ok 7) (.error "x") (.error "y")).2.1 7 rfl

/-- Counterexample to C3 as stated: when all three decoders fail with
distinct reasons, the rejected error is the fixed message, which does not
contain the per-decoder failure reasons (here the GLTF reason), so the
error does not carry the aggregated reasons. -/
theorem loadModel_error_not_aggregated :
    (loadModelTrace (M := Unit)
        (.error "gltf: bad magic") (.error "fbx: bad header") (.error "obj: no vertices")).1
      = .error loadFailMsg ∧
    ¬ ("bad magic".data <:+: loadFailMsg.data) := by
  constructor
  · rfl
  · decide

/-- Terminal state of one generateSpriteStrip run: the returned promise
either resolves with the artifact (done) or rejects (failed). -/
inductive Outcome where
  | done
  | failed
deriving DecidableEq

/-- Observable result of one run: the ordered list of values passed to
setProgress, the terminal outcome, and whether the materials of the model
were replaced by a texture. -/
structure RunResult where
  progressTrace : List ℚ
  outcome : Outcome
  materialsReplaced : Bool

/-- The progress value reported after frame i of frameCount
(useSpriteStripGenerator.ts line 84): onProgress is called with
i / frameCount and the handler sets 20 + (progress * 0.7). -/
def frameProgress (n i : ℕ) : ℚ := 20 + ((i : ℚ) / (n : ℚ)) * (7 / 10)

/-- generateSpriteStrip (useSpriteStripGenerator.ts lines 49-136) at the
level of its observable progress/outcome behaviour. The pipeline stages
that can branch, in source order: loadModel may reject (loadOk); the
optional texture application may fail, but its failure is caught at line
75 and generation continues with the original materials (texture: none =
no texture supplied, some true = applied, some false = application
failed); frame generation and composition always resolve given a loaded
model; setProgress(100) runs at line 91 and again at line 116, before the
optional onSubmit hook is awaited at line 123, whose rejection propagates
out of generateSpriteStrip (submitHook: none = no hook or hook resolves,
some false = hook rejects). The trace on the success path is
0, 10, 20, then frameProgress n i for i = 0..n-1, then 90, 100, 100. -/
def generateSpriteStrip (loadOk : Bool) (texture : Option Bool)
    (submitHook : Option Bool) (frameCount : ℕ) : RunResult :=
  if loadOk then
    { progressTrace :=
        [0, 10, 20] ++ (List.range frameCount).map (frameProgress frameCount)
          ++ [90, 100, 100]
      outcome := if submitHook = some false then .failed else .done
      materialsReplaced := texture == some true }
  else
    { progressTrace := [0, 10], outcome := .failed, materialsReplaced := false }

theorem frameProgress_mono (n : ℕ) : Monotone (fun i => frameProgress n i) := by
  intro i j hij
  unfold frameProgress
  have h0 : (0 : ℚ) ≤ (n : ℚ) := by positivity
  have h : (i : ℚ) / (n : ℚ) ≤ (j : ℚ) / (n : ℚ) :=
    div_le_div_of_nonneg_right (by exact_mod_cast hij) h0
  nlinarith

theorem frameProgress_lb (n i : ℕ) : 20 ≤ frameProgress n i := by
  unfold frameProgress
  have h1 : (0 : ℚ) ≤ (i : ℚ) / (n : ℚ) := by positivity
  nlinarith

theorem frameProgress_ub (n i : ℕ) (hi : i < n) : frameProgress n i ≤ 90 := by
  unfold frameProgress
  have hpos : (0 : ℚ) < (n : ℚ) := by
    exact_mod_cast Nat.lt_of_le_of_lt (Nat.zero_le i) hi
  have h1 : (i : ℚ) / (n : ℚ) ≤ 1 := by
    rw [div_le_one hpos]
    exact_mod_cast Nat.le_of_lt hi
  nlinarith

/-- Counterexample to C7 as stated: a run whose awaited submission hook
fails terminates in failure yet has reported 100%. -/
theorem progress_hundred_on_failed_submit :
    (100 : ℚ) ∈ (generateSpriteStrip true none (some false) 1).progressTrace ∧
    (generateSpriteStrip true none (some false) 1).outcome = Outcome.failed := by
  constructor
  · show (100 : ℚ) ∈ [0, 10, 20] ++ [frameProgress 1 0] ++ [90, 100, 100]
    simp
  · rfl

/-- C7 amended: over any single run the reported progress values are
monotonically non-decreasing, and 100% is reported if and only if the
model load succeeds and the run reaches composition; a run that fails only
in the awaited post-generation submission hook has already reported 100%
even though it terminates in failure. -/
theorem progress_monotone (loadOk : Bool) (texture : Option Bool)
    (submitHook : Option Bool) (n : ℕ) :
    (generateSpriteStrip loadOk texture submitHook n).progressTrace.Chain' (· ≤ ·) ∧
    ((100 : ℚ) ∈ (generateSpriteStrip loadOk texture submitHook n).progressTrace
      ↔ loadOk = true) := by
  cases loadOk
  · constructor
    · show List.Chain' (· ≤ ·) [0, 10]
      norm_num [List.chain'_cons]
    · simp [generateSpriteStrip]
  · constructor
    · show List.Chain' (· ≤ ·)
        ([0, 10, 20] ++ (List.range n).map (frameProgress n) ++ [90, 100, 100])
      rw [List.chain'_iff_pairwise]
      rw [List.pairwise_append, List.pairwise_append]
      refine ⟨⟨?_, ?_, ?_⟩, ?_, ?_⟩
      · norm_num [List.pairwise_cons]
      · rw [List.pairwise_map]
        exact (List.pairwise_lt_range n).imp
          (fun hab => frameProgress_mono n (Nat.le_of_lt hab))
      · intro a ha b hb
        obtain ⟨i, _, rfl⟩ := List.mem_map.mp hb
        have h20 := frameProgress_lb n i
        have ha20 : a ≤ 20 := by
          simp only [List.mem_cons, List.not_mem_nil, or_false] at ha
          rcases ha with rfl | rfl | rfl <;> norm_num
        linarith
      · norm_num [List.pairwise_cons]
      · intro a ha b hb
        have hb90 : (90 : ℚ) ≤ b := by
          simp only [List.mem_cons, List.not_mem_nil, or_false] at hb
          rcases hb with rfl | rfl | rfl <;> norm_num
        have ha90 : a ≤ 90 := by
          rcases List.mem_append.mp ha with ha | ha
          · simp only [List.mem_cons, List.not_mem_nil, or_false] at ha
            rcases ha with rfl | rfl | rfl <;> norm_num
          · obtain ⟨i, hi, rfl⟩ := List.mem_map.mp ha
            exact frameProgress_ub n i (List.mem_range.mp hi)
        linarith
    · simp [generateSpriteStrip]

/-- C9: a texture whose decoding or application fails never turns a run
that would succeed without a texture into a failure: the run still
completes, with the original materials of the model. -/
theorem texture_failure_harmless (loadOk : Bool) (submitHook : Option Bool)
    (n : ℕ)
    (h : (generateSpriteStrip loadOk none submitHook n).outcome = Outcome.done) :
    (generateSpriteStrip loadOk (some false) submitHook n).outcome = Outcome.done ∧
    (generateSpriteStrip loadOk (some false) submitHook n).materialsReplaced = false := by
  cases loadOk
  · exact absurd h (by simp [generateSpriteStrip])
  · refine ⟨?_, by simp [generateSpriteStrip]⟩
    by_cases hs : submitHook = some false
    · exact absurd h (by simp [generateSpriteStrip, hs])
    · simp [generateSpriteStrip, hs]

/-- Witness for C9: a run with a successful load, no submission hook and
one frame succeeds without a texture; with a failing texture it still
succeeds and keeps the original materials. -/
theorem texture_failure_harmless_witness :
    (generateSpriteStrip true (some false) none 1).outcome = Outcome.done ∧
    (generateSpriteStrip true (some false) none 1).materialsReplaced = false :=
  texture_failure_harmless true none 1 rfl

/-- 3D vector over exact reals (idealizing the JS float arithmetic of
three.js Vector3). -/
structure Vec3 where
  x : ℝ
  y : ℝ
  z : ℝ

/-- Rotation angle of frame i of frameCount
(useSpriteStripGenerator.ts line 481):
(i * (360 / frameCount) * Math.PI) / 180. -/
noncomputable def rotationAngle (frameCount i : ℕ) : ℝ :=
  ((i : ℝ) * (360 / (frameCount : ℝ)) * Real.pi) / 180

/-- World-space bounding-box center of the model as Box3.setFromObject
computes it. The geometry of the model is arbitrary, so the center of the
axis-aligned box of the rotated (and pre-scaled) geometry with the object
at the origin is an arbitrary function geomCenter of the Y rotation;
placing the object at position p translates the whole box by p, hence the
world center is geomCenter rotation + position componentwise. -/
def worldCenter (geomCenter : ℝ → Vec3) (p : Vec3) (θ : ℝ) : Vec3 :=
  ⟨(geomCenter θ).x + p.x, (geomCenter θ).y + p.y, (geomCenter θ).z + p.z⟩

/-- Per-frame centering correction of generateFrames
(useSpriteStripGenerator.ts lines 491-497): after resetting the position
to finalCenteredPosition p0 and applying the rotation, the rotated
bounding-box center is recomputed; if any axis deviates from zero by more
than 0.001 the whole center vector is subtracted from the position. -/
noncomputable def correctedPosition (geomCenter : ℝ → Vec3) (p0 : Vec3) (θ : ℝ) : Vec3 :=
  if 0.001 < |(worldCenter geomCenter p0 θ).x| ∨
      0.001 < |(worldCenter geomCenter p0 θ).y| ∨
      0.001 < |(worldCenter geomCenter p0 θ).z| then
    ⟨p0.x - (worldCenter geomCenter p0 θ).x,
     p0.y - (worldCenter geomCenter p0 θ).y,
     p0.z - (worldCenter geomCenter p0 θ).z⟩
  else p0

/-- One rendered frame: its rotation and the world-space bounding-box
center of the model at the moment renderer.render runs (the correction
step has already been applied by then). -/
structure FrameRec where
  rotation : ℝ
  renderedCenter : Vec3

/-- The frame loop of generateFrames (useSpriteStripGenerator.ts lines
480-505): for i in [0, frameCount), reset the position to p0 and the
rotation to zero, set rotation.y to rotationAngle, apply the centering
correction, then render. -/
noncomputable def generateFrames (geomCenter : ℝ → Vec3) (p0 : Vec3)
    (frameCount : ℕ) : List FrameRec :=
  (List.range frameCount).map fun i =>
    { rotation := rotationAngle frameCount i
      renderedCenter :=
        worldCenter geomCenter
          (correctedPosition geomCenter p0 (rotationAngle frameCount i))
          (rotationAngle frameCount i) }

theorem renderedCenter_small (geomCenter : ℝ → Vec3) (p0 : Vec3) (θ : ℝ) :
    |(worldCenter geomCenter (correctedPosition geomCenter p0 θ) θ).x| ≤ 1e-3 ∧
    |(worldCenter geomCenter (correctedPosition geomCenter p0 θ) θ).y| ≤ 1e-3 ∧
    |(worldCenter geomCenter (correctedPosition geomCenter p0 θ) θ).z| ≤ 1e-3 := by
  unfold correctedPosition worldCenter
  by_cases h : 0.001 < |(geomCenter θ).x + p0.x| ∨
      0.001 < |(geomCenter θ).y + p0.y| ∨
      0.001 < |(geomCenter θ).z + p0.z|
  · rw [if_pos h]
    refine ⟨?_, ?_, ?_⟩ <;>
      · dsimp only
        rw [show ∀ a b : ℝ, a + (b - (a + b)) = 0 by intro a b; ring]
        norm_num
  · rw [if_neg h]
    push_neg at h
    refine ⟨?_, ?_, ?_⟩ <;>
      · dsimp only
        linarith [h.1, h.2.1, h.2.2]

/-- C2: for every model geometry, every starting position and every frame
of the sequence (frame 0 with no rotation and the last frame included),
the world-space bounding-box center of the model at the moment the frame
is rendered lies within 1e-3 units of the origin on every axis. -/
theorem frames_centered (geomCenter : ℝ → Vec3) (p0 : Vec3) (n : ℕ)
    (fr : FrameRec) (hfr : fr ∈ generateFrames geomCenter p0 n) :
    |fr.renderedCenter.x| ≤ 1e-3 ∧ |fr.renderedCenter.y| ≤ 1e-3 ∧
    |fr.renderedCenter.z| ≤ 1e-3 := by
  obtain ⟨i, _, rfl⟩ := List.mem_map.mp hfr
  exact renderedCenter_small geomCenter p0 (rotationAngle n i)

/-- Sample geometry-center function for the C2 witness: an off-center
model whose bounding-box center sits 5 units up the x axis whatever the
rotation. -/
noncomputable def gcW : ℝ → Vec3 := fun _ => ⟨5, 0, 0⟩

/-- The single frame generated from gcW with frameCount 1. -/
noncomputable def frW : FrameRec :=
  { rotation := rotationAngle 1 0
    renderedCenter :=
      worldCenter gcW (correctedPosition gcW ⟨0, 0, 0⟩ (rotationAngle 1 0))
        (rotationAngle 1 0) }

/-- Witness for C2 at a concrete input: the one frame of a run over gcW is
rendered with its bounding-box center within 1e-3 of the origin. -/
theorem frames_centered_witness :
    |frW.renderedCenter.x| ≤ 1e-3 ∧ |frW.renderedCenter.y| ≤ 1e-3 ∧
    |frW.renderedCenter.z| ≤ 1e-3 :=
  frames_centered gcW ⟨0, 0, 0⟩ 1 frW
    (List.mem_map.mpr ⟨0, by simp, rfl⟩)

/-- C6: generateFrames produces exactly frameCount frames in index order;
frame i carries rotation i * (360 / frameCount) degrees converted to
radians; frame 0 has rotation 0; the angles are strictly increasing; and
no angle reaches 360 degrees (2 pi radians). -/
theorem generateFrames_rotations (geomCenter : ℝ → Vec3) (p0 : Vec3)
    (n : ℕ) (hn : 0 < n) :
    (generateFrames geomCenter p0 n).length = n ∧
    (generateFrames geomCenter p0 n).map FrameRec.rotation
      = (List.range n).map (rotationAngle n) ∧
    rotationAngle n 0 = 0 ∧
    (∀ i j, i < j → j < n → rotationAngle n i < rotationAngle n j) ∧
    (∀ i < n, rotationAngle n i < 2 * Real.pi) := by
  have hn' : (0 : ℝ) < (n : ℝ) := by exact_mod_cast hn
  refine ⟨by simp [generateFrames], ?_, ?_, ?_, ?_⟩
  · simp [generateFrames, List.map_map, Function.comp]
  · unfold rotationAngle
    simp
  · intro i j hij hjn
    unfold rotationAngle
    have hc : (0 : ℝ) < 360 / (n : ℝ) * Real.pi / 180 := by
      have := Real.pi_pos
      positivity
    have hij' : (i : ℝ) < (j : ℝ) := by exact_mod_cast hij
    calc ((i : ℝ) * (360 / (n : ℝ)) * Real.pi) / 180
        = (i : ℝ) * (360 / (n : ℝ) * Real.pi / 180) := by ring
      _ < (j : ℝ) * (360 / (n : ℝ) * Real.pi / 180) :=
          mul_lt_mul_of_pos_right hij' hc
      _ = ((j : ℝ) * (360 / (n : ℝ)) * Real.pi) / 180 := by ring
  · intro i hi
    unfold rotationAngle
    have hi' : (i : ℝ) < (n : ℝ) := by exact_mod_cast hi
    have h1 : (i : ℝ) / (n : ℝ) < 1 := (div_lt_one hn').mpr hi'
    have h2 : ((i : ℝ) * (360 / (n : ℝ)) * Real.pi) / 180
        = ((i : ℝ) / (n : ℝ)) * (2 * Real.pi) := by ring
    rw [h2]
    calc ((i : ℝ) / (n : ℝ)) * (2 * Real.pi)
        < 1 * (2 * Real.pi) :=
          mul_lt_mul_of_pos_right h1 (by positivity)
      _ = 2 * Real.pi := one_mul _

/-- Witness for C6: a run with one frame has exactly one frame. -/
theorem generateFrames_rotations_witness :
    (generateFrames gcW ⟨0, 0, 0⟩ 1).length = 1 :=
  (generateFrames_rotations gcW ⟨0, 0, 0⟩ 1 (by norm_num)).1

/-- Euclidean diagonal of the bounding box
(useSpriteStripGenerator.ts line 311). -/
noncomputable def diagonal (size : Vec3) : ℝ :=
  Real.sqrt (size.x * size.x + size.y * size.y + size.z * size.z)

/-- Maximum single extent of the bounding box (line 312). -/
noncomputable def maxDim (size : Vec3) : ℝ := max size.x (max size.y size.z)

/-- Conservative size estimate (line 315). -/
noncomputable def effectiveSize (size : Vec3) : ℝ :=
  max (diagonal size) (maxDim size)

/-- Frame padding constant (line 318). -/
noncomputable def framePadding : ℝ := 0.05

/-- Target size in camera-space units (line 319): 1.8 - framePadding * 2. -/
noncomputable def targetSize : ℝ := 1.8 - framePadding * 2

/-- Model scale factor (line 320). -/
noncomputable def scale (size : Vec3) : ℝ := targetSize / effectiveSize size

/-- Vertical field of view of 50 degrees in radians (lines 324-325). -/
noncomputable def fovRad : ℝ := 50 * Real.pi / 180

/-- Height of the scaled model (line 328). -/
noncomputable def modelHeight (size : Vec3) : ℝ :=
  effectiveSize size * scale size

/-- Distance needed to fit the model height in frame (line 331). -/
noncomputable def distanceForHeight (size : Vec3) : ℝ :=
  modelHeight size / (2 * Real.tan (fovRad / 2))

/-- Distance needed to fit the model width given the aspect ratio
(line 332); the source conservatively uses modelHeight as the width. -/
noncomputable def distanceForWidth (size : Vec3) (aspectRatio : ℝ) : ℝ :=
  modelHeight size / (2 * Real.tan (fovRad / 2) * aspectRatio)

/-- The record returned by calculateModelTransform. -/
structure ModelTransform where
  scale : ℝ
  position : Vec3
  cameraDistance : ℝ

/-- calculateModelTransform (useSpriteStripGenerator.ts lines 301-342),
as a function of the bounding-box center and size of the model and of the
target aspect ratio: scale by targetSize / effectiveSize, translate by the
negated center, and set the camera distance to the larger of the two fit
distances scaled by the 10 percent buffer, floored at 3.0. -/
noncomputable def calculateModelTransform (center size : Vec3)
    (aspectRatio : ℝ) : ModelTransform :=
  { scale := scale size
    position := ⟨-center.x, -center.y, -center.z⟩
    cameraDistance :=
      max (max (distanceForHeight size) (distanceForWidth size aspectRatio) * 1.1) 3.0 }

/-- Distance required to fit a vertical extent h in a camera of vertical
field of view fov: the frustum half-height at distance d is
d * tan(fov / 2), so d = h / (2 * tan(fov / 2)). Stated from the words of
the spec to compare against the source formula. -/
noncomputable def requiredDistanceForHeight (h fov : ℝ) : ℝ :=
  h / (2 * Real.tan (fov / 2))

/-- Distance required to fit a horizontal extent w in a camera of vertical
field of view fov and aspect ratio a: the frustum half-width at distance d
is d * tan(fov / 2) * a, so d = w / (2 * tan(fov / 2) * a). Stated from
the words of the spec to compare against the source formula. -/
noncomputable def requiredDistanceForWidth (w fov a : ℝ) : ℝ :=
  w / (2 * Real.tan (fov / 2) * a)

/-- C4: the camera distance is the larger of the distance required to fit
the model height and the distance required to fit its width given the
aspect ratio, both at the fixed 50 degree vertical field of view, scaled
by the 10 percent safety buffer and floored at the minimum distance 3.0. -/
theorem cameraDistance_formula (center size : Vec3) (a : ℝ) :
    (calculateModelTransform center size a).cameraDistance
      = max (max (requiredDistanceForHeight (modelHeight size) (50 * Real.pi / 180))
          (requiredDistanceForWidth (modelHeight size) (50 * Real.pi / 180) a) * 1.1)
        3.0 := rfl

/-- C5: for a bounding box with positive extents, the returned scale is
(1.8 - 2 * 0.05) divided by the larger of the Euclidean diagonal of the
extents and the maximum single extent, and the returned translation is the
negated bounding-box center. -/
theorem transform_scale_translation (center size : Vec3) (a : ℝ)
    (hx : 0 < size.x) (hy : 0 < size.y) (hz : 0 < size.z) :
    (calculateModelTransform center size a).scale
      = (1.8 - 2 * 0.05)
          / max (Real.sqrt (size.x ^ 2 + size.y ^ 2 + size.z ^ 2))
              (max size.x (max size.y size.z)) ∧
    (calculateModelTransform center size a).position
      = ⟨-center.x, -center.y, -center.z⟩ := by
  constructor
  · show scale size = _
    unfold scale targetSize framePadding effectiveSize diagonal maxDim
    rw [show size.x ^ 2 + size.y ^ 2 + size.z ^ 2
        = size.x * size.x + size.y * size.y + size.z * size.z by ring]
    norm_num
  · rfl

/-- Witness for C5 at the unit cube centered at the origin. -/
theorem transform_scale_translation_witness :
    (calculateModelTransform ⟨0, 0, 0⟩ ⟨1, 1, 1⟩ 1).scale
      = (1.8 - 2 * 0.05)
          / max (Real.sqrt ((1:ℝ) ^ 2 + (1:ℝ) ^ 2 + (1:ℝ) ^ 2))
              (max (1:ℝ) (max (1:ℝ) (1:ℝ))) ∧
    (calculateModelTransform ⟨0, 0, 0⟩ ⟨1, 1, 1⟩ 1).position
      = ⟨-(0:ℝ), -(0:ℝ), -(0:ℝ)⟩ :=
  transform_scale_translation ⟨0, 0, 0⟩ ⟨1, 1, 1⟩ 1 zero_lt_one zero_lt_one zero_lt_one

/-- C10: for every bounding box with positive extents and every aspect
ratio at least 1 (which covers all supported ratios), the camera distance
returned is exactly the 3.0 floor: the scaled model height is the constant
1.7, both fit distances with the 10 percent buffer stay below 3, so the
minimum-distance clamp is always the active branch. -/
theorem cameraDistance_always_min (center size : Vec3) (a : ℝ)
    (hx : 0 < size.x) (hy : 0 < size.y) (hz : 0 < size.z) (ha : 1 ≤ a) :
    (calculateModelTransform center size a).cameraDistance = 3.0 := by
  have h1 : size.x ≤ maxDim size := le_max_left _ _
  have h2 : maxDim size ≤ effectiveSize size := le_max_right _ _
  have heff : 0 < effectiveSize size := by linarith
  have hne : effectiveSize size ≠ 0 := ne_of_gt heff
  have hmh : modelHeight size = 17 / 10 := by
    unfold modelHeight scale
    rw [mul_comm, div_mul_cancel₀ _ hne]
    norm_num [targetSize, framePadding]
  have hfov : fovRad / 2 = 5 * Real.pi / 36 := by unfold fovRad; ring
  have hpi3 := Real.pi_gt_three
  have ht : 5 * Real.pi / 36 < Real.tan (5 * Real.pi / 36) :=
    Real.lt_tan (by positivity) (by nlinarith [Real.pi_pos])
  have htl : (5 : ℝ) / 12 < Real.tan (5 * Real.pi / 36) := by linarith
  have htpos : 0 < Real.tan (5 * Real.pi / 36) := by linarith
  have hdH : distanceForHeight size ≤ 51 / 25 := by
    unfold distanceForHeight
    rw [hmh, hfov]
    have h56 : (5 : ℝ) / 6 ≤ 2 * Real.tan (5 * Real.pi / 36) := by linarith
    calc (17 : ℝ) / 10 / (2 * Real.tan (5 * Real.pi / 36))
        ≤ 17 / 10 / (5 / 6) :=
          div_le_div_of_nonneg_left (by norm_num) (by norm_num) h56
      _ = 51 / 25 := by norm_num
  have hdW : distanceForWidth size a ≤ distanceForHeight size := by
    unfold distanceForWidth distanceForHeight
    rw [hmh, hfov]
    have hc : 2 * Real.tan (5 * Real.pi / 36)
        ≤ 2 * Real.tan (5 * Real.pi / 36) * a := by nlinarith
    exact div_le_div_of_nonneg_left (by norm_num) (by positivity) hc
  show max (max (distanceForHeight size) (distanceForWidth size a) * 1.1) 3.0 = 3.0
  rw [max_eq_left hdW]
  apply max_eq_right
  nlinarith [hdH]

/-- Witness for C10: the unit cube at aspect ratio 16:9 gets camera
distance exactly 3.0. -/
theorem cameraDistance_always_min_witness :
    (calculateModelTransform ⟨0, 0, 0⟩ ⟨1, 1, 1⟩ (16 / 9)).cameraDistance = 3.0 :=
  cameraDistance_always_min ⟨0, 0, 0⟩ ⟨1, 1, 1⟩ (16 / 9)
    zero_lt_one zero_lt_one zero_lt_one (by norm_num)

end SpriteGen
